import Mathlib

/-!
Shallow embedding of the repository script check_questions.py, a read-only
database diagnostic tool.  The external pieces (environment, database driver,
table contents, clock) are collected in a `World` record; each query helper of
the script becomes a pure Lean function returning the printed lines, the trace
of driver events it performs, and the rows it returns.  The entry point `main`
becomes a function from `World` to a `RunResult` holding the whole output, the
whole event trace and whether the run ended normally or with an exception that
escaped (Python: an uncaught exception propagating out of `main`).
-/

/-- One column row of the information_schema.columns introspection result:
(column_name, data_type, is_nullable, column_default). -/
structure Col where
  column_name : String
  data_type : String
  is_nullable : String
  column_default : Option String
  deriving DecidableEq

/-- The value of the metadata column as handed back by the database driver,
together with the behaviour of the library JSON parser on it.  `mstr raw p`
is a string value `raw`; `p = some m` means json.loads yields the key-value
map `m`, while `p = Option.none` means json.loads raises (or yields a value
that is not a map, so that the later `.get` attribute access raises — both
land in the same bare except branch of the script).  `mdict m` is a value the
driver already decoded to a map, which the script uses directly without
parsing. -/
inductive MetaCell where
  | mstr : String → Option (List (String × String)) → MetaCell
  | mdict : List (String × String) → MetaCell
  deriving DecidableEq

/-- One row of the interview_messages table (the columns the script reads). -/
structure Row where
  id : Nat
  session_id : Nat
  message_type : String
  content : String
  metadata : Option MetaCell
  timestamp : Int
  deriving DecidableEq

/-- One printed line.  Plain status prints are `msg`; the prints the claims
talk about keep their payload structured: `rowText` is the per-row
`Text:` line carrying the displayed body, `rowTimeAgo` the per-row
`Time ago:` line, `metaField`/`metaRaw` the metadata prints, and `errLine`
a failure print (the script prefixes those with a cross-mark emoji). -/
inductive Line where
  | msg : String → Line
  | rowText : String → Line
  | rowTimeAgo : Int → Line
  | metaField : String → String → Line
  | metaRaw : String → Line
  | errLine : String → Line
  deriving DecidableEq

/-- Tags for the SQL statements the script can execute. -/
inductive Tag where
  | schemaQ
  | recentQ
  | allQ
  | countQuestionsQ
  | countAnswersQ
  deriving DecidableEq

/-- Driver events: an attempt to open a connection, the execution attempt of
one SQL statement, and the closing of the connection. -/
inductive Ev where
  | connectEv
  | queryEv : Tag → Ev
  | closeEv
  deriving DecidableEq

/-- How the process ended: a normal return from `main`, or an exception that
propagated out of `main` (uncaught). -/
inductive Outcome where
  | normal
  | uncaught
  deriving DecidableEq

/-- The ambient world the script runs against: the process environment, which
driver operations succeed, the introspected schema rows, the table contents,
the current time (integer seconds), and the text of the error the driver
reports when an operation fails. -/
structure World where
  env : List (String × String)
  connectOk : Bool
  schemaOk : Bool
  schemaCols : List Col
  recentOk : Bool
  allOk : Bool
  countQOk : Bool
  countAOk : Bool
  rows : List Row
  now : Int
  dbErr : String
  deriving DecidableEq

/-- The observable result of one whole run. -/
structure RunResult where
  out : List Line
  events : List Ev
  outcome : Outcome
  deriving DecidableEq

/-- os.getenv k: look the key up in the environment. -/
def getenv (env : List (String × String)) (k : String) : Option String :=
  (env.find? (fun p => p.1 == k)).map (fun p => p.2)

/-- os.getenv k d: look the key up, falling back to the default. -/
def getenvD (env : List (String × String)) (k d : String) : String :=
  (getenv env k).getD d

/-- Python str.strip on a character list: drop leading and trailing
whitespace. -/
def pyStrip (l : List Char) : List Char :=
  ((l.dropWhile Char.isWhitespace).reverse.dropWhile Char.isWhitespace).reverse

/-- Value of a (already validated) list of decimal digit characters. -/
def digitsVal (l : List Char) : Nat :=
  l.foldl (fun a c => a * 10 + (c.toNat - 48)) 0

/-- Model of the Python int(str) constructor: strip whitespace, allow one
optional sign, then require one or more decimal digits; anything else raises
ValueError, modelled as `Option.none`. -/
def pyIntParse (s : String) : Option Int :=
  match pyStrip s.data with
  | [] => Option.none
  | c :: cs =>
    if c == '-' then
      if !cs.isEmpty && cs.all Char.isDigit then some (-(Int.ofNat (digitsVal cs)))
      else Option.none
    else if c == '+' then
      if !cs.isEmpty && cs.all Char.isDigit then some (Int.ofNat (digitsVal cs))
      else Option.none
    else
      if (c :: cs).all Char.isDigit then some (Int.ofNat (digitsVal (c :: cs)))
      else Option.none

/-- connect_to_database: read the configuration from the environment with the
documented defaults, convert the port with int(...), and attempt the
connection; every exception inside (including the port ValueError) is caught
and turned into a failure print plus a None result (here: `false`).  The
result triple is (printed lines, driver events, connection obtained). -/
def connect_to_database (w : World) : List Line × List Ev × Bool :=
  let host := getenvD w.env "DB_HOST" "localhost"
  let portS := getenvD w.env "DB_PORT" "5432"
  let dbname := getenvD w.env "DB_NAME" "mockmate_db"
  let user := getenvD w.env "DB_USER" "mockmate_user"
  match pyIntParse portS with
  | Option.none =>
      ([Line.errLine ("Database connection failed: invalid literal for int with base 10: " ++ portS)],
       [], false)
  | some port =>
      let announce :=
        Line.msg ("Connecting to database: " ++ user ++ "@" ++ host ++ ":" ++
          toString port ++ "/" ++ dbname)
      if w.connectOk then
        ([announce, Line.msg "Database connection successful!"], [Ev.connectEv], true)
      else
        ([announce, Line.errLine ("Database connection failed: " ++ w.dbErr)],
         [Ev.connectEv], false)

/-- Ordering used by ORDER BY timestamp DESC: a row comes before another when
its timestamp is at least as large. -/
def rowOrder (a b : Row) : Prop := b.timestamp ≤ a.timestamp

instance : DecidableRel rowOrder :=
  fun a b => inferInstanceAs (Decidable (b.timestamp ≤ a.timestamp))

instance : IsTotal Row rowOrder :=
  ⟨fun a b => le_total b.timestamp a.timestamp⟩

instance : IsTrans Row rowOrder :=
  ⟨fun _ _ _ hab hbc => le_trans hbc hab⟩

/-- ORDER BY timestamp DESC, modelled as a sort under `rowOrder`. -/
def sortByTimestampDesc (l : List Row) : List Row :=
  List.insertionSort rowOrder l

/-- The recency SELECT: rows with message_type question whose timestamp is at
or after the cutoff, most recent first. -/
def recentQuestionsQuery (rows : List Row) (cutoff : Int) : List Row :=
  sortByTimestampDesc
    (rows.filter (fun r => r.message_type == "question" && decide (cutoff ≤ r.timestamp)))

/-- The fallback SELECT: all question rows, most recent first, LIMIT n. -/
def allQuestionsQuery (rows : List Row) (limit : Nat) : List Row :=
  (sortByTimestampDesc (rows.filter (fun r => r.message_type == "question"))).take limit

/-- SELECT COUNT(*) ... WHERE message_type = t. -/
def countType (rows : List Row) (t : String) : Nat :=
  (rows.filter (fun r => r.message_type == t)).length

/-- dict.get k with default d on an association list. -/
def metaGet (m : List (String × String)) (k d : String) : String :=
  match m.find? (fun p => p.1 == k) with
  | some p => p.2
  | Option.none => d

/-- Python truthiness of the metadata value: None, the empty string and the
empty map are falsy, everything else truthy. -/
def metaTruthy : Option MetaCell → Bool
  | Option.none => false
  | some (MetaCell.mstr raw _) => !(raw == "")
  | some (MetaCell.mdict m) => !m.isEmpty

/-- The metadata block both row renderers print: nothing when the value is
falsy; otherwise parse a string value with json.loads and print the three
Source/Category/Difficulty fields with default unknown, falling back to one
raw-metadata print when the parse attempt raises. -/
def renderMetaLines : Option MetaCell → List Line
  | Option.none => []
  | some (MetaCell.mstr raw parsed) =>
    if raw == "" then []
    else
      match parsed with
      | some m =>
          [Line.metaField "Source" (metaGet m "source" "unknown"),
           Line.metaField "Category" (metaGet m "category" "unknown"),
           Line.metaField "Difficulty" (metaGet m "difficulty" "unknown")]
      | Option.none => [Line.metaRaw raw]
  | some (MetaCell.mdict m) =>
    if m.isEmpty then []
    else
      [Line.metaField "Source" (metaGet m "source" "unknown"),
       Line.metaField "Category" (metaGet m "category" "unknown"),
       Line.metaField "Difficulty" (metaGet m "difficulty" "unknown")]

/-- The displayed body in the recency view: the Python expression
question_text[:100] plus three dots exactly when len(question_text) > 100. -/
def displayText (s : String) : String :=
  String.mk (s.data.take 100 ++ (if 100 < s.data.length then "...".data else []))

/-- A string of n copies of a character (for the dashed separators). -/
def charLine (c : Char) (n : Nat) : String := String.mk (List.replicate n c)

/-- Left-justified padding to a given width, as the Python format specifier
of the schema print does. -/
def padR (s : String) (n : Nat) : String :=
  s ++ charLine ' ' (n - s.data.length)

/-- The per-row prints of the recency view (question number i): header, id,
session, truncated text, timestamp, elapsed time, metadata block. -/
def renderRecentRow (now : Int) (i : Nat) (r : Row) : List Line :=
  Line.msg ("Question #" ++ toString i ++ ":")
  :: Line.msg ("   ID: " ++ toString r.id)
  :: Line.msg ("   Session: " ++ toString r.session_id)
  :: Line.rowText (displayText r.content)
  :: Line.msg ("   Timestamp: " ++ toString r.timestamp)
  :: Line.rowTimeAgo (now - r.timestamp)
  :: renderMetaLines r.metadata

/-- The per-row prints of the fallback view: the same block without the
elapsed-time line and with the body in full. -/
def renderAllRow (i : Nat) (r : Row) : List Line :=
  Line.msg ("Question #" ++ toString i ++ ":")
  :: Line.msg ("   ID: " ++ toString r.id)
  :: Line.msg ("   Session: " ++ toString r.session_id)
  :: Line.rowText r.content
  :: Line.msg ("   Timestamp: " ++ toString r.timestamp)
  :: renderMetaLines r.metadata

/-- enumerate(questions, i): render each row with its 1-based index. -/
def renderRowsFrom (f : Nat → Row → List Line) (i : Nat) : List Row → List Line
  | [] => []
  | r :: rs => f i r ++ renderRowsFrom f (i + 1) rs

/-- check_recent_questions: run the recency query; on an empty result print a
no-questions line and return []; on success print the count, a separator and
every row; any query exception is caught, reported with its cause and turned
into an empty result. -/
def check_recent_questions (w : World) (hours_back : Int) :
    List Line × List Ev × List Row :=
  if w.recentOk then
    let time_threshold := w.now - hours_back * 3600
    let questions := recentQuestionsQuery w.rows time_threshold
    if questions.isEmpty then
      ([Line.errLine ("No questions found in the last " ++ toString hours_back ++ " hours")],
       [Ev.queryEv Tag.recentQ], [])
    else
      (Line.msg ("Found " ++ toString questions.length ++ " question(s) in the last " ++
          toString hours_back ++ " hours:")
        :: Line.msg (charLine '-' 80)
        :: renderRowsFrom (renderRecentRow w.now) 1 questions,
       [Ev.queryEv Tag.recentQ], questions)
  else
    ([Line.errLine ("Error querying questions: " ++ w.dbErr)],
     [Ev.queryEv Tag.recentQ], [])

/-- check_all_questions: run the fallback query with the given LIMIT; same
rendering as the recency view except the body is printed in full and no
elapsed-time line exists; any query exception is caught, reported with its
cause and turned into an empty result. -/
def check_all_questions (w : World) (limit : Nat) :
    List Line × List Ev × List Row :=
  if w.allOk then
    let questions := allQuestionsQuery w.rows limit
    if questions.isEmpty then
      ([Line.errLine "No questions found in the database"],
       [Ev.queryEv Tag.allQ], [])
    else
      (Line.msg ("Found " ++ toString questions.length ++ " most recent question(s):")
        :: Line.msg (charLine '-' 80)
        :: renderRowsFrom renderAllRow 1 questions,
       [Ev.queryEv Tag.allQ], questions)
  else
    ([Line.errLine ("Error querying questions: " ++ w.dbErr)],
     [Ev.queryEv Tag.allQ], [])

/-- One schema line of the structure report. -/
def renderCol (c : Col) : Line :=
  Line.msg ("   " ++ padR c.column_name 20 ++ " | " ++ padR c.data_type 15 ++ " | " ++
    padR (if c.is_nullable == "YES" then "NULL" else "NOT NULL") 8 ++ " | " ++
    c.column_default.getD "")

/-- check_table_structure: introspect the columns of interview_messages; an
empty result is reported as table not found (and no rows are produced); any
query exception is caught and reported with its cause.  Nothing is returned
to the caller. -/
def check_table_structure (w : World) : List Line × List Ev :=
  if w.schemaOk then
    if w.schemaCols.isEmpty then
      ([Line.errLine "interview_messages table not found"], [Ev.queryEv Tag.schemaQ])
    else
      (Line.msg "interview_messages table structure:"
        :: Line.msg (charLine '-' 60)
        :: w.schemaCols.map renderCol,
       [Ev.queryEv Tag.schemaQ])
  else
    ([Line.errLine ("Error checking table structure: " ++ w.dbErr)],
     [Ev.queryEv Tag.schemaQ])

/-- The main function of the script (renamed, since the Lean toplevel
reserves the bare name): connect; on failure return at once.  Otherwise run, inside a
try/finally whose finally closes the connection: the structure check, the
recency check with window 24, the fallback check with limit 10 when the
recency result is empty, then the two unguarded aggregate COUNT statements.
A failing COUNT raises past main (outcome uncaught) after the finally has
closed the connection; the second COUNT is only attempted when the first
succeeded. -/
def main_run (w : World) : RunResult :=
  let hdr := [Line.msg "MockMate Database Question Checker", Line.msg (charLine '=' 50)]
  let c := connect_to_database w
  if c.2.2 then
    let s := check_table_structure w
    let r := check_recent_questions w 24
    let fOut :=
      if r.2.2.isEmpty then
        Line.msg "3. Checking all questions (last 10)..." :: (check_all_questions w 10).1
      else []
    let fEv :=
      if r.2.2.isEmpty then (check_all_questions w 10).2.1 else []
    let pre := hdr ++ c.1 ++ (Line.msg "1. Checking table structure..." :: s.1) ++
      (Line.msg "2. Checking recent questions (last 24 hours)..." :: r.1) ++ fOut
    let preEv := c.2.1 ++ s.2 ++ r.2.1 ++ fEv
    if w.countQOk then
      if w.countAOk then
        { out := pre ++
            [Line.msg "Database Summary:",
             Line.msg ("   Total Questions: " ++ toString (countType w.rows "question")),
             Line.msg ("   Total Answers: " ++ toString (countType w.rows "answer")),
             Line.msg "Database connection closed"],
          events := preEv ++
            [Ev.queryEv Tag.countQuestionsQ, Ev.queryEv Tag.countAnswersQ, Ev.closeEv],
          outcome := Outcome.normal }
      else
        { out := pre ++ [Line.msg "Database connection closed"],
          events := preEv ++
            [Ev.queryEv Tag.countQuestionsQ, Ev.queryEv Tag.countAnswersQ, Ev.closeEv],
          outcome := Outcome.uncaught }
    else
      { out := pre ++ [Line.msg "Database connection closed"],
        events := preEv ++ [Ev.queryEv Tag.countQuestionsQ, Ev.closeEv],
        outcome := Outcome.uncaught }
  else
    { out := hdr ++ c.1, events := c.2.1, outcome := Outcome.normal }

/-- Is this event the execution attempt of some SQL statement? -/
def isQueryEv : Ev → Bool
  | Ev.queryEv _ => true
  | _ => false

/-- The SQL execution attempts of a run. -/
def queryEvents (res : RunResult) : List Ev :=
  res.events.filter isQueryEv

/-- Is this line the elapsed-time (hours ago) print? -/
def isTimeAgoLine : Line → Bool
  | Line.rowTimeAgo _ => true
  | _ => false

/-- Is this line part of a metadata block (parsed field or raw fallback)? -/
def isMetaLine : Line → Bool
  | Line.metaField _ _ => true
  | Line.metaRaw _ => true
  | _ => false

/-- A concrete baseline world for evaluating the model on examples: every
driver operation succeeds and the table is empty. -/
def baseWorld : World :=
  { env := [], connectOk := true, schemaOk := true, schemaCols := [],
    recentOk := true, allOk := true, countQOk := true, countAOk := true,
    rows := [], now := 360000, dbErr := "boom" }

/-- A question row inserted one hour before `baseWorld.now`. -/
def rowQ1h : Row :=
  { id := 1, session_id := 7, message_type := "question",
    content := "Explain the borrow checker", metadata := Option.none,
    timestamp := 360000 - 3600 }

/-- A question row inserted five hours before `baseWorld.now`. -/
def rowQ5h : Row :=
  { id := 2, session_id := 7, message_type := "question",
    content := "What is a mutex", metadata := Option.none,
    timestamp := 360000 - 5 * 3600 }

/-- A question row inserted thirty hours before `baseWorld.now`. -/
def rowQ30h : Row :=
  { id := 3, session_id := 8, message_type := "question",
    content := "Describe TCP slow start", metadata := Option.none,
    timestamp := 360000 - 30 * 3600 }

/-- An answer row inside the recency window. -/
def rowAns : Row :=
  { id := 4, session_id := 7, message_type := "answer",
    content := "It prevents data races", metadata := Option.none,
    timestamp := 360000 - 3600 }

/-- A question row whose metadata value is an empty map (falsy). -/
def rowEmptyMeta : Row :=
  { id := 5, session_id := 9, message_type := "question",
    content := "Why is the sky blue", metadata := some (MetaCell.mdict []),
    timestamp := 360000 - 2 * 3600 }

/-- The world of the spec recency scenario: three question rows inserted 1, 5
and 30 hours ago plus one answer row. -/
def scenarioWorld : World :=
  { baseWorld with rows := [rowQ30h, rowQ1h, rowAns, rowQ5h] }

/-- The parsed metadata map of the spec example: source and category present,
difficulty missing. -/
def exampleMeta : List (String × String) :=
  [("source", "llm"), ("category", "algorithms")]

/-- A string of 101 copies of one character, longer than the truncation
width. -/
def longBody : String := String.mk (List.replicate 101 'a')

/-- A world whose only question row is old, so the recency check is empty and
the fallback fires. -/
def fallbackWorld : World := { baseWorld with rows := [rowQ30h] }

/-- A world where the schema, recency and fallback statements all fail. -/
def brokenWorld : World :=
  { baseWorld with schemaOk := false, recentOk := false, allOk := false }

/-- A world whose DB_PORT environment value is not an integer. -/
def portWorld : World := { baseWorld with env := [("DB_PORT", "oops")] }

/-- Connection acquisition either fails with an empty event list (the port
ValueError, raised before the driver is invoked), or it attempts exactly one
connection. -/
theorem connect_cases (w : World) :
    ((connect_to_database w).2.2 = false ∧ (connect_to_database w).2.1 = []) ∨
    (connect_to_database w).2.1 = [Ev.connectEv] := by
  cases hp : pyIntParse (getenvD w.env "DB_PORT" "5432") with
  | none => exact Or.inl (by constructor <;> simp [connect_to_database, hp])
  | some port =>
      refine Or.inr ?_
      by_cases hc : w.connectOk = true <;> simp [connect_to_database, hp, hc]

/-- Connection acquisition performs no SQL statement. -/
theorem connect_queryEvents_nil (w : World) :
    ((connect_to_database w).2.1).filter isQueryEv = [] := by
  rcases connect_cases w with ⟨_, h⟩ | h <;> rw [h] <;> rfl

/-- When a connection was obtained, exactly the connect event happened. -/
theorem connect_events_of_true (w : World)
    (h : (connect_to_database w).2.2 = true) :
    (connect_to_database w).2.1 = [Ev.connectEv] := by
  rcases connect_cases w with ⟨hf, _⟩ | he
  · simp [h] at hf
  · exact he

/-- The structure check executes exactly one SQL statement, in every branch. -/
theorem check_table_structure_events (w : World) :
    (check_table_structure w).2 = [Ev.queryEv Tag.schemaQ] := by
  by_cases hs : w.schemaOk = true
  · by_cases hc : w.schemaCols.isEmpty = true <;> simp [check_table_structure, hs, hc]
  · simp [check_table_structure, hs]

/-- The recency check executes exactly one SQL statement, in every branch. -/
theorem check_recent_events (w : World) (hb : Int) :
    (check_recent_questions w hb).2.1 = [Ev.queryEv Tag.recentQ] := by
  by_cases hr : w.recentOk = true
  · by_cases he : (recentQuestionsQuery w.rows (w.now - hb * 3600)).isEmpty = true <;>
      simp [check_recent_questions, hr, he]
  · simp [check_recent_questions, hr]

/-- The fallback check executes exactly one SQL statement, in every branch. -/
theorem check_all_events (w : World) (n : Nat) :
    (check_all_questions w n).2.1 = [Ev.queryEv Tag.allQ] := by
  by_cases ha : w.allOk = true
  · by_cases he : (allQuestionsQuery w.rows n).isEmpty = true <;>
      simp [check_all_questions, ha, he]
  · simp [check_all_questions, ha]

/-- A run whose connection acquisition failed stops right there: its events
are the acquisition events and it ends normally. -/
theorem main_run_of_false (w : World)
    (h : (connect_to_database w).2.2 = false) :
    (main_run w).events = (connect_to_database w).2.1 ∧
    (main_run w).outcome = Outcome.normal := by
  simp only [main_run]
  rw [h]
  exact ⟨rfl, rfl⟩

/-- The exact event trace of a run whose connection acquisition succeeded:
connect, the schema statement, the recency statement, the fallback statement
exactly when the recency result was empty, the first COUNT, the second COUNT
exactly when the first succeeded, and one final close. -/
theorem main_run_events_of_true (w : World)
    (h : (connect_to_database w).2.2 = true) :
    (main_run w).events =
      Ev.connectEv :: Ev.queryEv Tag.schemaQ :: Ev.queryEv Tag.recentQ ::
      ((if (check_recent_questions w 24).2.2.isEmpty then [Ev.queryEv Tag.allQ] else []) ++
       (if w.countQOk then
          [Ev.queryEv Tag.countQuestionsQ, Ev.queryEv Tag.countAnswersQ]
        else [Ev.queryEv Tag.countQuestionsQ]) ++ [Ev.closeEv]) := by
  have hce := connect_events_of_true w h
  have hse := check_table_structure_events w
  have hre := check_recent_events w 24
  have hae := check_all_events w 10
  by_cases hq : w.countQOk = true <;> by_cases ha : w.countAOk = true <;>
    cases he : (check_recent_questions w 24).2.2.isEmpty <;>
      simp [main_run, h, hq, ha, he, hce, hse, hre, hae]

/-- The outcome of a connected run: normal exactly when both COUNT statements
succeed, otherwise the exception escapes main. -/
theorem main_run_outcome_of_true (w : World)
    (h : (connect_to_database w).2.2 = true) :
    (main_run w).outcome =
      (if w.countQOk && w.countAOk then Outcome.normal else Outcome.uncaught) := by
  by_cases hq : w.countQOk = true <;> by_cases ha : w.countAOk = true <;>
    simp [main_run, h, hq, ha]

/-- A row produced by the recency SELECT is a question row at or after the
cutoff. -/
theorem mem_recentQuestionsQuery {r : Row} {rows : List Row} {cutoff : Int}
    (h : r ∈ recentQuestionsQuery rows cutoff) :
    r.message_type = "question" ∧ cutoff ≤ r.timestamp := by
  unfold recentQuestionsQuery sortByTimestampDesc at h
  rw [List.mem_insertionSort] at h
  simpa using (List.mem_filter.mp h).2

/-- The sort used for ORDER BY timestamp DESC is sorted by descending
timestamp. -/
theorem pairwise_sortByTimestampDesc (l : List Row) :
    List.Pairwise (fun a b => b.timestamp ≤ a.timestamp) (sortByTimestampDesc l) :=
  List.sorted_insertionSort rowOrder l

/-- When no table row matches, the recency SELECT is empty. -/
theorem recentQuestionsQuery_eq_nil {rows : List Row} {cutoff : Int}
    (h : ∀ r ∈ rows, ¬(r.message_type = "question" ∧ cutoff ≤ r.timestamp)) :
    recentQuestionsQuery rows cutoff = [] := by
  unfold recentQuestionsQuery sortByTimestampDesc
  have hf : rows.filter
      (fun r => r.message_type == "question" && decide (cutoff ≤ r.timestamp)) = [] := by
    rw [List.filter_eq_nil_iff]
    intro a ha
    simpa using h a ha
  rw [hf]
  rfl

/-- With a working recency query, the rows check_recent_questions hands back
are exactly the SELECT result. -/
theorem check_recent_rows (w : World) (hb : Int) (h : w.recentOk = true) :
    (check_recent_questions w hb).2.2 =
      recentQuestionsQuery w.rows (w.now - hb * 3600) := by
  by_cases he : (recentQuestionsQuery w.rows (w.now - hb * 3600)).isEmpty = true
  · simp [check_recent_questions, h, he]
    exact List.isEmpty_iff.mp he
  · simp [check_recent_questions, h, he]

/-- With a working fallback query, the rows check_all_questions hands back
are exactly the SELECT result. -/
theorem check_all_rows (w : World) (n : Nat) (h : w.allOk = true) :
    (check_all_questions w n).2.2 = allQuestionsQuery w.rows n := by
  by_cases he : (allQuestionsQuery w.rows n).isEmpty = true
  · simp [check_all_questions, h, he]
    exact List.isEmpty_iff.mp he
  · simp [check_all_questions, h, he]

/-- The fallback SELECT honours its LIMIT. -/
theorem allQuestionsQuery_length_le (rows : List Row) (n : Nat) :
    (allQuestionsQuery rows n).length ≤ n :=
  List.length_take_le n _

/-- A row produced by the fallback SELECT is a question row. -/
theorem mem_allQuestionsQuery {r : Row} {rows : List Row} {n : Nat}
    (h : r ∈ allQuestionsQuery rows n) : r.message_type = "question" := by
  unfold allQuestionsQuery sortByTimestampDesc at h
  have h2 := List.take_subset n _ h
  rw [List.mem_insertionSort] at h2
  simpa using (List.mem_filter.mp h2).2

/-- The fallback SELECT result is sorted by descending timestamp. -/
theorem allQuestionsQuery_pairwise (rows : List Row) (n : Nat) :
    List.Pairwise (fun a b => b.timestamp ≤ a.timestamp) (allQuestionsQuery rows n) :=
  (pairwise_sortByTimestampDesc _).sublist (List.take_sublist n _)

/-- Each row of the fallback view contributes its full body as the displayed
text line. -/
theorem rowText_mem_renderRowsFrom (r : Row) :
    ∀ (l : List Row) (i : Nat), r ∈ l →
      Line.rowText r.content ∈ renderRowsFrom renderAllRow i l := by
  intro l
  induction l with
  | nil => intro i h; cases h
  | cons x xs ih =>
    intro i h
    rcases List.mem_cons.mp h with rfl | hx
    · unfold renderRowsFrom
      refine List.mem_append_left _ ?_
      simp [renderAllRow]
    · unfold renderRowsFrom
      exact List.mem_append_right _ (ih (i + 1) hx)

/-- The metadata block never contains the elapsed-time line. -/
theorem renderMetaLines_noTimeAgo (mc : Option MetaCell) :
    (renderMetaLines mc).all (fun l => !isTimeAgoLine l) = true := by
  rcases mc with _ | mc
  · rfl
  · rcases mc with ⟨raw, parsed⟩ | m
    · by_cases hr : (raw == "") = true
      · simp [renderMetaLines, hr]
      · rcases parsed with _ | m <;> simp [renderMetaLines, hr, isTimeAgoLine]
    · by_cases hm : m.isEmpty = true <;> simp [renderMetaLines, hm, isTimeAgoLine]

/-- A fallback-view row never prints an elapsed-time line. -/
theorem renderAllRow_noTimeAgo (i : Nat) (r : Row) :
    (renderAllRow i r).all (fun l => !isTimeAgoLine l) = true := by
  simp only [renderAllRow, List.all_cons]
  rw [renderMetaLines_noTimeAgo]
  rfl

/-- The whole fallback-view row listing never prints an elapsed-time line. -/
theorem renderRowsFrom_noTimeAgo :
    ∀ (l : List Row) (i : Nat),
      (renderRowsFrom renderAllRow i l).all (fun l => !isTimeAgoLine l) = true := by
  intro l
  induction l with
  | nil => intro i; rfl
  | cons x xs ih =>
    intro i
    simp only [renderRowsFrom, List.all_append]
    rw [renderAllRow_noTimeAgo, ih]
    rfl

/-- Falsy metadata renders nothing. -/
theorem renderMetaLines_of_falsy {mc : Option MetaCell}
    (h : metaTruthy mc = false) : renderMetaLines mc = [] := by
  rcases mc with _ | mc
  · rfl
  · rcases mc with ⟨raw, parsed⟩ | m
    · have hr : (raw == "") = true := by
        simpa [metaTruthy] using h
      simp [renderMetaLines, hr]
    · have hm : m.isEmpty = true := by
        simpa [metaTruthy] using h
      simp [renderMetaLines, hm]

/-- Claim C1: if connection acquisition fails (connect_to_database returns no
connection), then no database query is ever attempted and the program
terminates cleanly without an unhandled fault, for every configuration. -/
theorem claim_C1 (w : World) (h : (connect_to_database w).2.2 = false) :
    queryEvents (main_run w) = [] ∧ (main_run w).outcome = Outcome.normal := by
  obtain ⟨he, ho⟩ := main_run_of_false w h
  refine ⟨?_, ho⟩
  unfold queryEvents
  rw [he]
  exact connect_queryEvents_nil w

/-- Witness for C1 at a concrete world whose connection attempt fails. -/
theorem claim_C1_witness :
    (connect_to_database { baseWorld with connectOk := false }).2.2 = false ∧
    (queryEvents (main_run { baseWorld with connectOk := false }) = [] ∧
      (main_run { baseWorld with connectOk := false }).outcome = Outcome.normal) :=
  ⟨by decide, claim_C1 { baseWorld with connectOk := false } (by decide)⟩

/-- Claim C2: for any recency window W (hours), every row returned by
check_recent_questions satisfies timestamp at or after now minus W hours and
has message_type question, the result is sorted by timestamp descending, and
an empty sequence is returned when no row matches. -/
theorem claim_C2 (w : World) (hb : Int) (h : w.recentOk = true) :
    (∀ r ∈ (check_recent_questions w hb).2.2,
        r.message_type = "question" ∧ w.now - hb * 3600 ≤ r.timestamp) ∧
    List.Pairwise (fun a b => b.timestamp ≤ a.timestamp)
      (check_recent_questions w hb).2.2 ∧
    ((∀ r ∈ w.rows, ¬(r.message_type = "question" ∧ w.now - hb * 3600 ≤ r.timestamp)) →
      (check_recent_questions w hb).2.2 = []) := by
  rw [check_recent_rows w hb h]
  refine ⟨?_, ?_, ?_⟩
  · intro r hr
    exact mem_recentQuestionsQuery hr
  · exact pairwise_sortByTimestampDesc _
  · intro hnone
    exact recentQuestionsQuery_eq_nil hnone

/-- Witness for C2 on the spec scenario (rows 1, 5 and 30 hours old, window
24): the one-hour-old row is returned and satisfies the window bound. -/
theorem claim_C2_witness :
    scenarioWorld.recentOk = true ∧
    (rowQ1h.message_type = "question" ∧
      scenarioWorld.now - 24 * 3600 ≤ rowQ1h.timestamp) :=
  ⟨rfl, (claim_C2 scenarioWorld 24 rfl).1 rowQ1h (by decide)⟩

/-- Claim C3: the fallback query is invoked exactly once when the recency
query returns an empty sequence, and never when it returns a non-empty
sequence. -/
theorem claim_C3 (w : World) (h : (connect_to_database w).2.2 = true) :
    (main_run w).events.count (Ev.queryEv Tag.allQ) =
      (if (check_recent_questions w 24).2.2.isEmpty then 1 else 0) := by
  rw [main_run_events_of_true w h]
  cases he : (check_recent_questions w 24).2.2.isEmpty <;>
    cases hq : w.countQOk <;> decide

/-- Witness for C3 at a concrete world with an empty table: the recency
result is empty and the fallback statement is executed exactly once. -/
theorem claim_C3_witness :
    (connect_to_database baseWorld).2.2 = true ∧
    (main_run baseWorld).events.count (Ev.queryEv Tag.allQ) = 1 :=
  ⟨by decide, (claim_C3 baseWorld (by decide)).trans (by decide)⟩

/-- Claim C4: for any limit N the fallback query returns at most N rows, all
question rows, sorted by timestamp descending; its rendering shows each body
in full and computes no hours_ago value. -/
theorem claim_C4 (w : World) (limit : Nat) (h : w.allOk = true) :
    (check_all_questions w limit).2.2.length ≤ limit ∧
    (∀ r ∈ (check_all_questions w limit).2.2, r.message_type = "question") ∧
    List.Pairwise (fun a b => b.timestamp ≤ a.timestamp)
      (check_all_questions w limit).2.2 ∧
    (∀ r ∈ (check_all_questions w limit).2.2,
      Line.rowText r.content ∈ (check_all_questions w limit).1) ∧
    (check_all_questions w limit).1.all (fun l => !isTimeAgoLine l) = true := by
  have hrows := check_all_rows w limit h
  refine ⟨?_, ?_, ?_, ?_, ?_⟩
  · rw [hrows]
    exact allQuestionsQuery_length_le _ _
  · rw [hrows]
    intro r hr
    exact mem_allQuestionsQuery hr
  · rw [hrows]
    exact allQuestionsQuery_pairwise _ _
  · by_cases he : (allQuestionsQuery w.rows limit).isEmpty = true
    · intro r hr
      rw [hrows, List.isEmpty_iff.mp he] at hr
      cases hr
    · intro r hr
      rw [hrows] at hr
      have hout : (check_all_questions w limit).1 =
          Line.msg ("Found " ++ toString (allQuestionsQuery w.rows limit).length ++
            " most recent question(s):")
          :: Line.msg (charLine '-' 80)
          :: renderRowsFrom renderAllRow 1 (allQuestionsQuery w.rows limit) := by
        simp [check_all_questions, h, he]
      rw [hout]
      exact List.mem_cons_of_mem _
        (List.mem_cons_of_mem _ (rowText_mem_renderRowsFrom r _ 1 hr))
  · by_cases he : (allQuestionsQuery w.rows limit).isEmpty = true
    · have hout : (check_all_questions w limit).1 =
          [Line.errLine "No questions found in the database"] := by
        simp [check_all_questions, h, he]
      rw [hout]
      rfl
    · have hout : (check_all_questions w limit).1 =
          Line.msg ("Found " ++ toString (allQuestionsQuery w.rows limit).length ++
            " most recent question(s):")
          :: Line.msg (charLine '-' 80)
          :: renderRowsFrom renderAllRow 1 (allQuestionsQuery w.rows limit) := by
        simp [check_all_questions, h, he]
      rw [hout]
      simp only [List.all_cons]
      rw [renderRowsFrom_noTimeAgo]
      rfl

/-- Witness for C4 at a world with one old question row: the fallback view
shows that row and displays its body in full. -/
theorem claim_C4_witness :
    fallbackWorld.allOk = true ∧
    Line.rowText rowQ30h.content ∈ (check_all_questions fallbackWorld 10).1 :=
  ⟨rfl, (claim_C4 fallbackWorld 10 rfl).2.2.2.1 rowQ30h (by decide)⟩

/-- Claim C5: in the recency view a body of more than 100 characters is
displayed as exactly its first 100 characters followed by the ellipsis
marker, and a body of at most 100 characters is displayed unmodified. -/
theorem claim_C5 (s : String) :
    (100 < s.data.length → displayText s = String.mk (s.data.take 100) ++ "...") ∧
    (s.data.length ≤ 100 → displayText s = s) := by
  constructor
  · intro h
    unfold displayText
    rw [if_pos h]
    rfl
  · intro h
    unfold displayText
    rw [if_neg (not_lt.mpr h), List.append_nil, List.take_of_length_le h]

/-- Witness for C5 on a 101-character body: the display is the 100-character
prefix plus the ellipsis marker. -/
theorem claim_C5_witness :
    100 < longBody.data.length ∧
    displayText longBody = String.mk (longBody.data.take 100) ++ "..." :=
  ⟨by decide, (claim_C5 longBody).1 (by decide)⟩

/-- Claim C6: when a metadata value fails to parse as a structured map, the
raw value is displayed verbatim (and processing continues, the renderer being
total); when it parses as a map, each of the keys source, category and
difficulty that is missing is displayed as the placeholder unknown. -/
theorem claim_C6 (raw : String) (m : List (String × String)) :
    (raw ≠ "" → renderMetaLines (some (MetaCell.mstr raw Option.none)) =
        [Line.metaRaw raw]) ∧
    (raw ≠ "" → renderMetaLines (some (MetaCell.mstr raw (some m))) =
        [Line.metaField "Source" (metaGet m "source" "unknown"),
         Line.metaField "Category" (metaGet m "category" "unknown"),
         Line.metaField "Difficulty" (metaGet m "difficulty" "unknown")]) ∧
    (∀ k d : String, (∀ p ∈ m, p.1 ≠ k) → metaGet m k d = d) := by
  refine ⟨?_, ?_, ?_⟩
  · intro h
    have hr : (raw == "") = false := by simpa using h
    simp [renderMetaLines, hr]
  · intro h
    have hr : (raw == "") = false := by simpa using h
    simp [renderMetaLines, hr]
  · intro k d hk
    unfold metaGet
    have hf : m.find? (fun p => p.1 == k) = Option.none := by
      rw [List.find?_eq_none]
      intro p hp
      simpa using hk p hp
    rw [hf]

/-- Witness for C6 on the spec example map with source llm and category
algorithms but no difficulty: the three fields render with difficulty
unknown. -/
theorem claim_C6_witness :
    ("x" : String) ≠ "" ∧
    renderMetaLines (some (MetaCell.mstr "x" (some exampleMeta))) =
      [Line.metaField "Source" "llm",
       Line.metaField "Category" "algorithms",
       Line.metaField "Difficulty" "unknown"] :=
  ⟨by decide, ((claim_C6 "x" exampleMeta).2.1 (by decide)).trans (by decide)⟩

/-- Claim C7: in every run whose connection acquisition succeeded the
connection is closed exactly once on every exit path, and a failure of either
aggregate-count statement is not locally caught: the run ends with an escaped
exception, yet the close still happened. -/
theorem claim_C7 (w : World) (h : (connect_to_database w).2.2 = true) :
    (main_run w).events.count Ev.closeEv = 1 ∧
    ((w.countQOk = false ∨ w.countAOk = false) →
      (main_run w).outcome = Outcome.uncaught) := by
  constructor
  · rw [main_run_events_of_true w h]
    cases he : (check_recent_questions w 24).2.2.isEmpty <;>
      cases hq : w.countQOk <;> decide
  · intro hd
    rw [main_run_outcome_of_true w h]
    rcases hd with hq | ha
    · simp [hq]
    · simp [ha]

/-- Witness for C7 at a world whose first COUNT statement fails: the close
event still happens exactly once and the run ends with an escaped
exception. -/
theorem claim_C7_witness :
    (connect_to_database { baseWorld with countQOk := false }).2.2 = true ∧
    (main_run { baseWorld with countQOk := false }).events.count Ev.closeEv = 1 ∧
    (main_run { baseWorld with countQOk := false }).outcome = Outcome.uncaught :=
  ⟨by decide, (claim_C7 _ (by decide)).1, (claim_C7 _ (by decide)).2 (Or.inl rfl)⟩

/-- Claim C8: a query failure in schema introspection, the recency query or
the fallback query is caught inside that operation, reported with the
underlying cause and yields an empty result, after which execution continues
to the subsequent steps (the aggregate COUNT is still attempted and the
connection still closed); a missing target table reports table not found and
produces no rows without being a hard failure. -/
theorem claim_C8 (w : World) :
    (w.schemaOk = false → check_table_structure w =
        ([Line.errLine ("Error checking table structure: " ++ w.dbErr)],
         [Ev.queryEv Tag.schemaQ])) ∧
    (w.schemaOk = true → w.schemaCols = [] → check_table_structure w =
        ([Line.errLine "interview_messages table not found"],
         [Ev.queryEv Tag.schemaQ])) ∧
    (∀ hb : Int, w.recentOk = false → check_recent_questions w hb =
        ([Line.errLine ("Error querying questions: " ++ w.dbErr)],
         [Ev.queryEv Tag.recentQ], [])) ∧
    (∀ n : Nat, w.allOk = false → check_all_questions w n =
        ([Line.errLine ("Error querying questions: " ++ w.dbErr)],
         [Ev.queryEv Tag.allQ], [])) ∧
    ((connect_to_database w).2.2 = true →
      Ev.queryEv Tag.countQuestionsQ ∈ (main_run w).events ∧
      Ev.closeEv ∈ (main_run w).events) := by
  refine ⟨?_, ?_, ?_, ?_, ?_⟩
  · intro hs
    simp [check_table_structure, hs]
  · intro hs hc
    simp [check_table_structure, hs, hc]
  · intro hb hr
    simp [check_recent_questions, hr]
  · intro n ha
    simp [check_all_questions, ha]
  · intro hconn
    rw [main_run_events_of_true w hconn]
    cases he : (check_recent_questions w 24).2.2.isEmpty <;>
      cases hq : w.countQOk <;> exact ⟨by decide, by decide⟩

/-- Witness for C8 at a world where the schema, recency and fallback
statements all fail: each failure is absorbed with a reported cause and the
aggregate count is still attempted. -/
theorem claim_C8_witness :
    brokenWorld.schemaOk = false ∧
    check_table_structure brokenWorld =
      ([Line.errLine ("Error checking table structure: " ++ brokenWorld.dbErr)],
       [Ev.queryEv Tag.schemaQ]) ∧
    check_recent_questions brokenWorld 24 =
      ([Line.errLine ("Error querying questions: " ++ brokenWorld.dbErr)],
       [Ev.queryEv Tag.recentQ], []) ∧
    Ev.queryEv Tag.countQuestionsQ ∈ (main_run brokenWorld).events :=
  ⟨rfl, (claim_C8 brokenWorld).1 rfl, (claim_C8 brokenWorld).2.2.1 24 rfl,
   ((claim_C8 brokenWorld).2.2.2.2 (by decide)).1⟩

/-- Claim C9: for a rendered row in either view, a falsy metadata value
(absent, empty string or empty map) produces no metadata output at all:
neither placeholder fields nor a raw-metadata line. -/
theorem claim_C9 (now : Int) (i : Nat) (r : Row)
    (h : metaTruthy r.metadata = false) :
    renderMetaLines r.metadata = [] ∧
    (renderRecentRow now i r).all (fun l => !isMetaLine l) = true ∧
    (renderAllRow i r).all (fun l => !isMetaLine l) = true := by
  have hm := renderMetaLines_of_falsy h
  refine ⟨hm, ?_, ?_⟩
  · simp only [renderRecentRow, List.all_cons, hm]
    rfl
  · simp only [renderAllRow, List.all_cons, hm]
    rfl

/-- Witness for C9 on a row whose metadata is an empty map: nothing
metadata-related is rendered. -/
theorem claim_C9_witness :
    metaTruthy rowEmptyMeta.metadata = false ∧
    renderMetaLines rowEmptyMeta.metadata = [] :=
  ⟨rfl, (claim_C9 0 1 rowEmptyMeta rfl).1⟩

/-- Claim C10: a DB_PORT environment value that does not parse as an integer
is treated as a connection failure: the ValueError is caught inside
connect_to_database, a failure diagnostic is printed, no connection is
returned, and the run exits cleanly without attempting any query. -/
theorem claim_C10 (w : World) (s : String)
    (h1 : getenv w.env "DB_PORT" = some s)
    (h2 : pyIntParse s = Option.none) :
    connect_to_database w =
      ([Line.errLine ("Database connection failed: invalid literal for int with base 10: " ++ s)],
       [], false) ∧
    queryEvents (main_run w) = [] ∧
    (main_run w).outcome = Outcome.normal := by
  have hs : getenvD w.env "DB_PORT" "5432" = s := by
    unfold getenvD
    rw [h1]
    rfl
  have hc : connect_to_database w =
      ([Line.errLine ("Database connection failed: invalid literal for int with base 10: " ++ s)],
       [], false) := by
    simp only [connect_to_database]
    rw [hs, h2]
  have hf : (connect_to_database w).2.2 = false := by
    rw [hc]
  obtain ⟨he, ho⟩ := main_run_of_false w hf
  refine ⟨hc, ?_, ho⟩
  unfold queryEvents
  rw [he, hc]
  rfl

/-- Witness for C10 at a world with DB_PORT set to a non-numeric string: the
run ends normally with no query attempted. -/
theorem claim_C10_witness :
    getenv portWorld.env "DB_PORT" = some "oops" ∧
    pyIntParse "oops" = Option.none ∧
    (main_run portWorld).outcome = Outcome.normal :=
  ⟨by decide, by decide,
   (claim_C10 portWorld "oops" (by decide) (by decide)).2.2⟩
